import Mathlib

/-!
Verification of the multi-agent orchestration graph of the langgraph-101-ts
repository: a shallow embedding of the message data model, the identity
verification helper, the invoice tool layer, the top-level supervisor graph
with memory (05-supervisor_with_memory.ts), the sub-agent tool loop
(01-music_subagent.ts and the variant embedded in 03-supervisor.ts), and the
supervisor delegate wrappers (03-supervisor.ts).

External collaborators (the chat model, the structured-extraction model, the
ToolNode executor and the relational store) are modelled as function
parameters; the relational store is modelled as a list of rows so that the
SQL queries issued by the code become list filters.
-/

namespace LangGraph101

/-! ## Message data model -/

/-- A tool-call request attached to an assistant message. -/
structure ToolCall where
  name : String
  args : String
deriving Repr, DecidableEq

/-- A conversation message: role, content, and the tool calls carried by an
assistant message (empty for all other roles). -/
structure Message where
  role : String
  content : String
  toolCalls : List ToolCall := []
deriving Repr, DecidableEq

/-- Constructor mirroring `new HumanMessage(content)`. -/
def humanMessage (content : String) : Message :=
  { role := "human", content := content }

/-- Constructor mirroring `new AIMessage(content)` (no tool calls). -/
def aiMessage (content : String) : Message :=
  { role := "ai", content := content }

/-- An assistant message that carries tool-call requests. -/
def aiToolCallMessage (content : String) (tcs : List ToolCall) : Message :=
  { role := "ai", content := content, toolCalls := tcs }

/-- A tool-result message appended by the tool node. -/
def toolMessage (content : String) : Message :=
  { role := "tool", content := content }

/-- Mirrors `AIMessage.isInstance(m)` (false for `undefined`, handled at the
call sites via `Option`). -/
def isAIMessage (m : Message) : Bool :=
  m.role == "ai"

/-! ## Customer store

The `Customer` table of the relational store, as far as the verification
helper queries it: `CustomerId`, nullable `Phone`, nullable `Email`.
The SQL queries issued by `getCustomerIdFromIdentifier` become list
filters over this table. -/

structure Customer where
  customerId : Int
  phone : Option String := none
  email : Option String := none
deriving Repr, DecidableEq

/-- Mirrors `identifier.replace(/[\s\(\)]/g, "")`: drop whitespace and
parentheses. -/
def normalizePhone (s : String) : String :=
  String.mk (s.data.filter fun c => !(c.isWhitespace || c == '(' || c == ')'))

/-- Mirrors the test `/^\d+$/.test(identifier)`: nonempty and all ASCII
digits. -/
def isAllDigits (s : String) : Bool :=
  s ≠ "" && s.data.all (·.isDigit)

/-- Mirrors `s.startsWith("+")` (written on the character list so the
kernel can evaluate it). -/
def startsWithPlus (s : String) : Bool :=
  match s.data with
  | c :: _ => c == '+'
  | [] => false

/-- Mirrors `s.includes(c)` for a single character. -/
def includesChar (c : Char) (s : String) : Bool :=
  s.data.any (· == c)

/-- Mirrors `s.trim()` (written on the character list so the kernel can
evaluate it). -/
def jsTrim (s : String) : String :=
  String.mk (((s.data.dropWhile (·.isWhitespace)).reverse.dropWhile
    (·.isWhitespace)).reverse)

/-- Mirrors `parseInt` on a string that is all ASCII digits. -/
def digitsToNat (s : String) : Nat :=
  s.data.foldl (fun a c => 10 * a + (c.toNat - Char.toNat '0')) 0

/-- Row set of `SELECT CustomerId FROM Customer WHERE Phone = '<p>'`
(a NULL phone never matches). -/
def queryPhoneEq (tbl : List Customer) (p : String) : List Customer :=
  tbl.filter fun c => c.phone == some p

/-- Row set of `SELECT CustomerId, Phone FROM Customer WHERE Phone LIKE '+%'`. -/
def queryPhoneLikePlus (tbl : List Customer) : List Customer :=
  tbl.filter fun c =>
    match c.phone with
    | some p => startsWithPlus p
    | none => false

/-- Row set of `SELECT CustomerId FROM Customer WHERE Email = '<e>'`. -/
def queryEmailEq (tbl : List Customer) (e : String) : List Customer :=
  tbl.filter fun c => c.email == some e

/-- Shallow embedding of `getCustomerIdFromIdentifier(identifier, db)` from
05-supervisor_with_memory.ts (identical in 04 and in the unnamed
supervisor-with-verification variant).  The three `if` blocks of the source
return early on success and otherwise fall through to the next block and
finally to `return null`. -/
def getCustomerIdFromIdentifier (identifier : String) (tbl : List Customer) :
    Option Int :=
  if isAllDigits identifier then
    some (Int.ofNat (digitsToNat identifier))
  else
    let phoneResult : Option Int :=
      if startsWithPlus identifier then
        let normalizedInput := normalizePhone identifier
        match (queryPhoneEq tbl identifier).head? with
        | some row => some row.customerId
        | none =>
            (queryPhoneLikePlus tbl).findSome? fun row =>
              match row.phone with
              | some p =>
                  if p ≠ "" && normalizePhone p == normalizedInput then
                    some row.customerId
                  else none
              | none => none
      else none
    match phoneResult with
    | some cid => some cid
    | none =>
        if includesChar '@' identifier then
          match (queryEmailEq tbl identifier).head? with
          | some row => some row.customerId
          | none => none
        else none

/-! Claim-level lookup functions (statement side for C4). -/

/-- First customer whose stored phone equals the identifier exactly. -/
def lookupPhoneExact (tbl : List Customer) (p : String) : Option Int :=
  (tbl.find? fun c => c.phone == some p).map (·.customerId)

/-- First customer whose stored phone begins with a plus sign and whose
normalized phone equals the normalized identifier (the scan the code performs
over the rows of the `LIKE '+%'` query). -/
def lookupPhonePlusNormalized (tbl : List Customer) (p : String) : Option Int :=
  ((queryPhoneLikePlus tbl).find? fun c =>
      match c.phone with
      | some q => q ≠ "" && normalizePhone q == normalizePhone p
      | none => false).map (·.customerId)

/-- Normalized phone comparison against ALL stored phone numbers, as the
claim words it (no restriction to phones beginning with a plus sign).
Modelled from the spec: used only to exhibit where the code differs. -/
def lookupPhoneNormalizedAllSpec (tbl : List Customer) (p : String) : Option Int :=
  (tbl.find? fun c =>
      match c.phone with
      | some q => normalizePhone q == normalizePhone p
      | none => false).map (·.customerId)

/-- First customer whose stored email equals the identifier exactly. -/
def lookupEmailExact (tbl : List Customer) (e : String) : Option Int :=
  (tbl.find? fun c => c.email == some e).map (·.customerId)

/-! ## Invoice tool layer (implicit-context variant)

From the unnamed invoice-subagent source (part_000): each tool reads
`customerId` from the graph state via `getCurrentTaskInput`, returns the
error sentinel without touching the store when it is falsy, and otherwise
issues exactly one query.  The store is modelled as a function from query
strings to row sets; each run records the queries issued. -/

/-- A row of a query result: field name / value pairs. -/
abbrev Row := List (String × String)

/-- Stand-in for `JSON.stringify` on one row. -/
def stringifyField (f : String × String) : String :=
  "\"" ++ f.1 ++ "\":\"" ++ f.2 ++ "\""

/-- Stand-in for `JSON.stringify` on one row object. -/
def stringifyRow (r : Row) : String :=
  "\x7b" ++ String.intercalate "," (r.map stringifyField) ++ "\x7d"

/-- Stand-in for `JSON.stringify` on a row set. -/
def stringifyRows (rows : List Row) : String :=
  "[" ++ String.intercalate "," (rows.map stringifyRow) ++ "]"

/-- Result of one tool execution together with the queries it issued
against the relational store. -/
structure ToolRun where
  result : String
  queries : List String
deriving Repr, DecidableEq

/-- The error sentinel the invoice tools return when no customer id is in
state. -/
def invoiceErrorSentinel : String :=
  "Error: Customer ID not found in state. Customer must be verified first."

/-- JavaScript truthiness of `state.customerId` (a number or `undefined`):
`undefined` and `0` are falsy. -/
def jsNumberTruthy : Option Int → Bool
  | none => false
  | some n => n != 0

/-- Shallow embedding of the `get_invoices_by_customer_sorted_by_date` tool
(implicit-context variant).  Whitespace inside the SQL text is condensed. -/
def getInvoicesByCustomerSortedByDate (db : String → List Row)
    (customerId : Option Int) : ToolRun :=
  if !(jsNumberTruthy customerId) then
    { result := invoiceErrorSentinel, queries := [] }
  else
    let cid := customerId.getD 0
    let query := "SELECT * FROM Invoice WHERE CustomerId = " ++ toString cid ++
      " ORDER BY InvoiceDate DESC;"
    { result := stringifyRows (db query), queries := [query] }

/-- Shallow embedding of the `get_invoices_sorted_by_unit_price` tool
(implicit-context variant). -/
def getInvoicesSortedByUnitPrice (db : String → List Row)
    (customerId : Option Int) : ToolRun :=
  if !(jsNumberTruthy customerId) then
    { result := invoiceErrorSentinel, queries := [] }
  else
    let cid := customerId.getD 0
    let query := "SELECT Invoice.*, InvoiceLine.UnitPrice FROM Invoice" ++
      " JOIN InvoiceLine ON Invoice.InvoiceId = InvoiceLine.InvoiceId" ++
      " WHERE Invoice.CustomerId = " ++ toString cid ++
      " ORDER BY InvoiceLine.UnitPrice DESC;"
    { result := stringifyRows (db query), queries := [query] }

/-- Shallow embedding of the `get_employee_by_invoice_and_customer` tool
(implicit-context variant). -/
def getEmployeeByInvoiceAndCustomer (db : String → List Row)
    (invoiceId : Int) (customerId : Option Int) : ToolRun :=
  if !(jsNumberTruthy customerId) then
    { result := invoiceErrorSentinel, queries := [] }
  else
    let cid := customerId.getD 0
    let query := "SELECT Employee.FirstName, Employee.Title, Employee.Email" ++
      " FROM Employee JOIN Customer ON Customer.SupportRepId = Employee.EmployeeId" ++
      " JOIN Invoice ON Invoice.CustomerId = Customer.CustomerId" ++
      " WHERE Invoice.InvoiceId = " ++ toString invoiceId ++
      " AND Invoice.CustomerId = " ++ toString cid ++ ";"
    let rows := db query
    if rows.isEmpty then
      { result := "No employee found for invoice ID " ++ toString invoiceId ++
          " and customer identifier " ++ toString cid ++ "."
        queries := [query] }
    else
      { result := stringifyRows rows, queries := [query] }

/-! ## Shared graph state (AgentState of utils.ts / StateAnnotation) -/

/-- The shared state record threaded through the graphs: `messages`,
optional `customerId`, `loadedMemory` (default ""), `remainingSteps`
(default 25). -/
structure GraphState where
  messages : List Message
  customerId : Option Int := none
  loadedMemory : String := ""
  remainingSteps : Int := 25
deriving Repr, DecidableEq

/-- The partial state object a node returns.  A node that omits a field
leaves it unchanged; returned messages are appended by the messages
reducer. -/
structure StateUpdate where
  messages : List Message := []
  customerId : Option Int := none
  loadedMemory : Option String := none
deriving Repr, DecidableEq

/-- Merge a node result into the state: messages are appended, the other
channels are overwritten only when the update carries a value. -/
def applyUpdate (s : GraphState) (u : StateUpdate) : GraphState :=
  { messages := s.messages ++ u.messages
    customerId :=
      match u.customerId with
      | some c => some c
      | none => s.customerId
    loadedMemory := u.loadedMemory.getD s.loadedMemory
    remainingSteps := s.remainingSteps }

/-! ## Long-term memory store (InMemoryStore) -/

/-- The persisted per-customer memory record (UserProfileSchema). -/
structure UserProfile where
  customerId : String
  musicPreferences : List String
deriving Repr, DecidableEq

/-- The value saved in the store: `put(namespace, key, \x7b memory: profile \x7d)`. -/
structure UserData where
  memory : UserProfile
deriving Repr, DecidableEq

/-- The item shape `InMemoryStore.get` returns: the stored value behind a
`.value` field. -/
structure StoreItem where
  value : UserData
deriving Repr, DecidableEq

/-- The keyed preference store: entries keyed by (namespace, key). -/
abbrev MemStore := List ((List String × String) × UserData)

/-- Mirrors `inMemoryStore.put(namespace, key, v)` (overwrite semantics:
`storeGet` returns the most recent entry for a key). -/
def storePut (st : MemStore) (nsp : List String) (key : String)
    (v : UserData) : MemStore :=
  ((nsp, key), v) :: st

/-- Mirrors `inMemoryStore.get(namespace, key)`. -/
def storeGet (st : MemStore) (nsp : List String) (key : String) :
    Option StoreItem :=
  (st.find? fun e => e.1 == (nsp, key)).map fun e => { value := e.2 }

/-- Shallow embedding of `formatUserMemory(userData)` from
05-supervisor_with_memory.ts.  In the typed model `userData.memory` is
always present, so the JS truthiness guards on `profile` and
`profile.musicPreferences` reduce to the length check. -/
def formatUserMemory (userData : UserData) : String :=
  let profile := userData.memory
  let result :=
    if profile.musicPreferences.length > 0 then
      "Music Preferences: " ++ String.intercalate ", " profile.musicPreferences
    else ""
  jsTrim result

/-! ## Collaborators of the top-level graph

The chat model and the structured-extraction model are external; the graph
only depends on them through these functions. -/

/-- External collaborators of 05-supervisor_with_memory.ts:
`extractIdentifier` models the structured extraction over the latest message
(the constant extraction prompt is folded into the function), `respond`
models `defaultModel.invoke([new SystemMessage(instructions), ...messages])`,
`supervisorRun` models `supervisor.invoke(state).messages`, and
`extractProfile` models the structured profile extraction from the
conversation and the formatted memory profile. -/
structure Collab where
  extractIdentifier : Option Message → String
  respond : String → List Message → Message
  supervisorRun : GraphState → List Message
  extractProfile : List Message → String → UserProfile

/-- The strict system instruction used by the verification node when
identity is unresolved. -/
def verifySystemInstructions : String :=
  "You are a music store agent, where you are trying to verify the customer identity as the first step of the customer support process. \n" ++
  "You cannot support them until their account is verified. \n" ++
  "In order to verify their identity, one of their customer ID, email, or phone number needs to be provided.\n" ++
  "If the customer has not provided their identifier, please ask them for it.\n" ++
  "If they have provided the identifier but cannot be found, please ask them to revise it.\n\n" ++
  "IMPORTANT: Do NOT ask any questions about their request, or make any attempt at addressing their request until their identity is verified. It is CRITICAL that you only ask about their identity for security purposes."

/-- Confirmation text appended on successful verification. -/
def verifiedMessageText (cid : Int) : String :=
  "Thank you for providing your information! I was able to verify your account with customer id " ++
  toString cid ++ "."

/-! ## Nodes of 05-supervisor_with_memory.ts -/

/-- Shallow embedding of the `verifyInfo` node.  When `customerId` is
already set the node returns an empty update; otherwise it extracts an
identifier from the latest message, resolves it when nonempty, and either
writes `customerId` plus a confirmation message or appends the decision
step response produced under `verifySystemInstructions`. -/
def verifyInfo (co : Collab) (tbl : List Customer) (s : GraphState) :
    StateUpdate :=
  match s.customerId with
  | some _ => {}
  | none =>
      let userInput := s.messages.getLast?
      let identifier := co.extractIdentifier userInput
      let cid : Option Int :=
        if identifier ≠ "" then getCustomerIdFromIdentifier identifier tbl
        else none
      match cid with
      | some c =>
          { customerId := some c, messages := [aiMessage (verifiedMessageText c)] }
      | none =>
          { messages := [co.respond verifySystemInstructions s.messages] }

/-- Shallow embedding of the `humanInput` node body once `interrupt`
has returned the resume value `r`. -/
def humanInputUpdate (r : String) : StateUpdate :=
  { messages := [humanMessage r] }

/-- Shallow embedding of the `loadMemory` node.  `state.customerId?.toString()`
is falsy exactly when `customerId` is undefined (the string "0" is truthy). -/
def loadMemory (st : MemStore) (s : GraphState) : StateUpdate :=
  match s.customerId with
  | none =>
      { loadedMemory := some "", messages := [humanMessage "user_preferences: none"] }
  | some cid =>
      let userId := toString cid
      let nsp := ["memory_profile", userId]
      let formattedMemory :=
        match storeGet st nsp "user_memory" with
        | some item => formatUserMemory item.value
        | none => ""
      let preferencesMessage :=
        if formattedMemory ≠ "" then "user_preferences: " ++ formattedMemory
        else "user_preferences: none"
      { loadedMemory := some formattedMemory
        messages := [humanMessage preferencesMessage] }

/-- Shallow embedding of the `createMemory` node: with a customer id it
runs profile extraction over the conversation and the current
`loadedMemory` and persists the extracted profile verbatim, returning no
state updates; without one it does nothing.  (`state.loadedMemory || ""`
is the identity on the defaulted string field.) -/
def createMemory (co : Collab) (s : GraphState) (st : MemStore) :
    StateUpdate × MemStore :=
  match s.customerId with
  | none => ({}, st)
  | some cid =>
      let userId := toString cid
      let nsp := ["memory_profile", userId]
      let formattedMemory := s.loadedMemory
      let updatedMemory := co.extractProfile s.messages formattedMemory
      ({}, storePut st nsp "user_memory" { memory := updatedMemory })

/-- Shallow embedding of the `supervisorNode` wrapper. -/
def supervisorNodeUpdate (co : Collab) (s : GraphState) : StateUpdate :=
  { messages := co.supervisorRun s }

/-- Shallow embedding of the conditional edge `shouldInterrupt`. -/
def shouldInterrupt (s : GraphState) : String :=
  if s.customerId.isSome then "continue" else "interrupt"

/-! ## The top-level graph (multiAgentFinal) as a step machine -/

/-- The nodes of the compiled multiAgentFinal graph. -/
inductive Node
  | verify_info
  | human_input
  | load_memory
  | supervisor
  | create_memory
deriving Repr, DecidableEq

/-- A configuration of the executor: still running at a node, suspended at
the interrupt inside `human_input`, or finished at END. -/
inductive StepOut
  | running (n : Node) (s : GraphState) (st : MemStore)
  | suspended (s : GraphState) (st : MemStore)
  | finished (s : GraphState) (st : MemStore)
deriving Repr, DecidableEq

/-- The state carried by a configuration. -/
def outState : StepOut → GraphState
  | .running _ s _ => s
  | .suspended s _ => s
  | .finished s _ => s

/-- One superstep of the compiled graph: run the node, merge its update and
follow its outgoing edge.  `human_input` invokes `interrupt` and therefore
suspends; every other node runs to completion. -/
def step (co : Collab) (tbl : List Customer) :
    Node → GraphState → MemStore → StepOut
  | .verify_info, s, st =>
      let s2 := applyUpdate s (verifyInfo co tbl s)
      if shouldInterrupt s2 = "continue" then .running .load_memory s2 st
      else .running .human_input s2 st
  | .human_input, s, st => .suspended s st
  | .load_memory, s, st =>
      .running .supervisor (applyUpdate s (loadMemory st s)) st
  | .supervisor, s, st =>
      .running .create_memory (applyUpdate s (supervisorNodeUpdate co s)) st
  | .create_memory, s, st =>
      let r := createMemory co s st
      .finished (applyUpdate s r.1) r.2

/-- Resuming a suspended run with text `r`: the `human_input` node body
completes with the resume value and the graph follows the
`human_input → verify_info` edge. -/
def resumeStep (r : String) (s : GraphState) (st : MemStore) : StepOut :=
  .running .verify_info (applyUpdate s (humanInputUpdate r)) st

/-- One transition of the executor: either a superstep from a running
configuration, or a resume of a suspended one. -/
inductive StepRel (co : Collab) (tbl : List Customer) : StepOut → StepOut → Prop
  | run (n : Node) (s : GraphState) (st : MemStore) (o : StepOut) :
      step co tbl n s st = o → StepRel co tbl (.running n s st) o
  | res (r : String) (s : GraphState) (st : MemStore) (o : StepOut) :
      resumeStep r s st = o → StepRel co tbl (.suspended s st) o

/-- Reachability in zero or more transitions. -/
inductive Reaches (co : Collab) (tbl : List Customer) : StepOut → StepOut → Prop
  | refl (o : StepOut) : Reaches co tbl o o
  | tail {a b c : StepOut} : Reaches co tbl a b → StepRel co tbl b c →
      Reaches co tbl a c

/-- The initial configuration of a run: the input state carries only
messages, the other channels take their declared defaults, and the entry
edge START → verify_info is followed. -/
def initConfig (msgs : List Message) (st : MemStore) : StepOut :=
  .running .verify_info { messages := msgs } st

/-! ## The sub-agent (ReAct) loop

Two source variants build the same two-node graph
(`music_assistant`, `music_tool_node`) with the same conditional-edge label
map, but their `shouldContinue` functions return opposite labels.  The loop
is parameterized by the memory lookup of the assistant node and by the
routing function so both variants share one stepper. -/

/-- External collaborators of the loop: the decision step (the system
prompt built by `generateMusicAssistantPrompt(memory)` is folded into the
first argument) and the ToolNode executor, which turns the tool calls of
the last message into tool-result messages. -/
structure LoopCollab where
  decideStep : String → List Message → Message
  runTools : Message → List Message

/-- Memory lookup of the assistant node in 01-music_subagent.ts:
`state.loadedMemory ?? "None"`.  The field is a defaulted string, so the
nullish fallback never fires. -/
def memory01 (s : GraphState) : String :=
  s.loadedMemory

/-- Memory lookup of the assistant node embedded in 03-supervisor.ts:
`"None"` unless `state.loadedMemory` is truthy. -/
def memory03 (s : GraphState) : String :=
  if s.loadedMemory ≠ "" then s.loadedMemory else "None"

/-- Stand-in for the last message where the TypeScript would fault on an
empty list; unreachable from the loop, which has just appended a message. -/
def defaultLastMessage : Message :=
  { role := "ai", content := "" }

/-- Shallow embedding of `shouldContinue` from 01-music_subagent.ts: label
"end" when the last message is an assistant message carrying tool calls,
label "continue" otherwise. -/
def shouldContinue01 (s : GraphState) : String :=
  match s.messages.getLast? with
  | some m =>
      if isAIMessage m && m.toolCalls.length > 0 then "end" else "continue"
  | none => "continue"

/-- Shallow embedding of the `shouldContinue` variant embedded in
03-supervisor.ts: label "end" when the last message carries no tool calls,
label "continue" otherwise (the source casts without a role check). -/
def shouldContinue03 (s : GraphState) : String :=
  let lastMessage := s.messages.getLastD defaultLastMessage
  if lastMessage.toolCalls.length == 0 then "end" else "continue"

/-- Where a conditional-edge label leads. -/
inductive RouteTarget
  | toolNode
  | terminal
deriving Repr, DecidableEq

/-- The conditional-edge label map, identical in both files:
`continue` is wired to `music_tool_node` and `end` to END. -/
def musicEdgeMap (label : String) : Option RouteTarget :=
  if label == "continue" then some .toolNode
  else if label == "end" then some .terminal
  else none

/-- Routing of the assistant node in 01-music_subagent.ts. -/
def route01 (s : GraphState) : Option RouteTarget :=
  musicEdgeMap (shouldContinue01 s)

/-- Routing of the assistant node embedded in 03-supervisor.ts. -/
def route03 (s : GraphState) : Option RouteTarget :=
  musicEdgeMap (shouldContinue03 s)

/-- The two nodes of the loop graph. -/
inductive LoopNode
  | assistant
  | toolNode
deriving Repr, DecidableEq

/-- A configuration of the loop executor. -/
inductive LoopOut
  | running (n : LoopNode) (s : GraphState)
  | finishedLoop (s : GraphState)
deriving Repr, DecidableEq

/-- One superstep of the loop graph.  The assistant node invokes the
decision step and follows the conditional edge; the tool node executes the
tool calls of the last message and returns to the assistant.  An unmapped
label cannot arise from either routing function. -/
def loopStep (memoryOf : GraphState → String)
    (route : GraphState → Option RouteTarget) (co : LoopCollab) :
    LoopNode → GraphState → LoopOut
  | .assistant, s =>
      let memory := memoryOf s
      let s2 := applyUpdate s { messages := [co.decideStep memory s.messages] }
      match route s2 with
      | some .toolNode => .running .toolNode s2
      | some .terminal => .finishedLoop s2
      | none => .finishedLoop s2
  | .toolNode, s =>
      let results := co.runTools (s.messages.getLastD defaultLastMessage)
      .running .assistant (applyUpdate s { messages := results })

/-- Iterate the loop executor for a given number of supersteps. -/
def loopRun (stepF : LoopNode → GraphState → LoopOut) :
    Nat → LoopOut → LoopOut
  | 0, o => o
  | _ + 1, .finishedLoop s => .finishedLoop s
  | fuel + 1, .running n s => loopRun stepF fuel (stepF n s)

/-- Count the transitions that enter the tool node (the Deciding→Executing
rounds of the spec) within a given number of supersteps. -/
def countToolEntries (stepF : LoopNode → GraphState → LoopOut) :
    Nat → LoopOut → Nat
  | 0, _ => 0
  | _ + 1, .finishedLoop _ => 0
  | fuel + 1, .running n s =>
      match stepF n s with
      | .running .toolNode s2 =>
          1 + countToolEntries stepF fuel (.running .toolNode s2)
      | o => countToolEntries stepF fuel o

/-- The remainingSteps channel of a loop configuration. -/
def loopRemainingSteps : LoopOut → Int
  | .running _ s => s.remainingSteps
  | .finishedLoop s => s.remainingSteps

/-- Whether a loop configuration has reached END. -/
def loopFinished : LoopOut → Bool
  | .running _ _ => false
  | .finishedLoop _ => true

/-! ## Supervisor delegate wrappers (03-supervisor.ts, implicit-context
variant) -/

/-- The input object passed to a nested sub-agent graph invocation. -/
structure SubagentInput where
  messages : List Message
  customerId : Option Int := none
deriving Repr, DecidableEq

/-- Shallow embedding of the `invoice_information_subagent` tool wrapper:
the visible tool schema has only `query`; the customer id is read from the
ambient graph state (`getCurrentTaskInput`) and passed to the nested graph
through state.  The nested graph is the external collaborator `sub`,
returning the messages of its final state; the wrapper returns the content
of the last of them (`none` models the fault on an empty final list). -/
def callInvoiceInformationSubagent (sub : SubagentInput → List Message)
    (stateCustomerId : Option Int) (query : String) : Option String :=
  let result := sub { messages := [humanMessage query], customerId := stateCustomerId }
  result.getLast?.map (·.content)

/-- Shallow embedding of the `music_catalog_subagent` tool wrapper: no
customer scoping, fresh message list seeded with the query only. -/
def callMusicCatalogSubagent (sub : SubagentInput → List Message)
    (query : String) : Option String :=
  let result := sub { messages := [humanMessage query] }
  result.getLast?.map (·.content)

/-! ## Concrete instances used by witnesses and counterexamples -/

/-- A collaborator bundle whose extraction finds nothing and whose decision
step returns a fixed identity request. -/
def trivialCollab : Collab where
  extractIdentifier := fun _ => ""
  respond := fun _ _ => aiMessage "Please provide your customer ID, email, or phone number."
  supervisorRun := fun _ => []
  extractProfile := fun _ _ => { customerId := "", musicPreferences := [] }

/-- A collaborator bundle whose extraction finds the identifier "10". -/
def c2Collab : Collab :=
  { trivialCollab with extractIdentifier := fun _ => "10" }

/-- The opening message of the verification-success scenario. -/
def c2Msgs : List Message :=
  [humanMessage "My customer ID is 10. What are my invoices?"]

/-- An input state whose latest message contains no identifier. -/
def c3State : GraphState :=
  { messages := [humanMessage "I need my invoices."] }

/-- A customer whose stored phone normalizes to "+1" but does not begin
with a plus sign (it has a leading space), so the `LIKE` query skips it. -/
def mismatchTable : List Customer :=
  [{ customerId := 1, phone := some " +1" }]

/-- A decision step that always requests one tool call, paired with a tool
executor returning one result message: the misbehaving decision step of the
budget-bound scenario. -/
def loopToolCallCollab : LoopCollab where
  decideStep := fun _ _ =>
    aiToolCallMessage "" [{ name := "get_albums_by_artist", args := "U2" }]
  runTools := fun _ => [toolMessage "album rows"]

/-- Initial state of a sub-agent loop execution. -/
def loopStartState : GraphState :=
  { messages := [humanMessage "recommend music"] }

/-- A state whose last message is an assistant response carrying a tool
call. -/
def toolCallDecisionState : GraphState :=
  { messages := [humanMessage "what albums do you have by U2",
                 aiToolCallMessage "" [{ name := "get_albums_by_artist", args := "U2" }]] }

/-- A state whose last message is a final assistant answer (no tool calls). -/
def finalAnswerDecisionState : GraphState :=
  { messages := [humanMessage "what albums do you have by U2",
                 aiMessage "The store has two albums by U2."] }

/-- A collaborator bundle whose profile extraction returns the jazz
profile for customer "10". -/
def jazzCollab : Collab :=
  { trivialCollab with
      extractProfile := fun _ _ => { customerId := "10", musicPreferences := ["jazz"] } }

/-- A verified state for customer 10. -/
def c8State : GraphState :=
  { messages := [humanMessage "I love jazz."], customerId := some 10 }

/-- A store already holding the jazz profile for customer "10". -/
def staleJazzStore : MemStore :=
  [((["memory_profile", "10"], "user_memory"),
    { memory := { customerId := "10", musicPreferences := ["jazz"] } })]

/-- A collaborator bundle whose profile extraction supplies an empty
preference list (no non-empty replacement for the stored one). -/
def emptyingCollab : Collab :=
  { trivialCollab with
      extractProfile := fun _ _ => { customerId := "10", musicPreferences := [] } }

/-- A verified state for customer 10 whose memory was already loaded. -/
def c9State : GraphState :=
  { messages := [humanMessage "thanks"], customerId := some 10
    loadedMemory := "Music Preferences: jazz" }

/-- Gate invariant of the top-level graph: the nodes downstream of the
verification gate only run with a resolved customer id. -/
def GateInv : StepOut → Prop
  | .running n s _ =>
      (n = Node.load_memory ∨ n = Node.supervisor ∨ n = Node.create_memory) →
        s.customerId ≠ none
  | .suspended _ _ => True
  | .finished _ _ => True

/-! ## Helper lemmas -/

theorem head?_filter_eq_find? {α : Type} (l : List α) (p : α → Bool) :
    (l.filter p).head? = l.find? p := by
  induction l with
  | nil => rfl
  | cons a l ih =>
      cases hp : p a <;>
        simp [List.filter_cons, List.find?_cons, hp, ih]

theorem findSome?_guard_eq_find?_map {α β : Type} (l : List α) (p : α → Bool)
    (g : α → β) :
    (l.findSome? fun a => if p a then some (g a) else none) =
      (l.find? p).map g := by
  induction l with
  | nil => rfl
  | cons a l ih =>
      cases hp : p a <;>
        simp [List.findSome?_cons, List.find?_cons, hp, ih]

theorem applyUpdate_empty (s : GraphState) : applyUpdate s {} = s := by
  cases s with
  | mk ms c lm rs => simp [applyUpdate]

theorem loadMemory_customerId_none (st : MemStore) (s : GraphState) :
    (loadMemory st s).customerId = none := by
  unfold loadMemory
  cases s.customerId <;> rfl

theorem createMemory_fst_empty (co : Collab) (s : GraphState) (st : MemStore) :
    (createMemory co s st).1 = {} := by
  unfold createMemory
  cases s.customerId <;> rfl

theorem applyUpdate_customerId_none (s : GraphState) (u : StateUpdate)
    (h : u.customerId = none) : (applyUpdate s u).customerId = s.customerId := by
  simp [applyUpdate, h]

theorem verifyInfo_pass (co : Collab) (tbl : List Customer) (s : GraphState)
    (c : Int) (h : s.customerId = some c) : verifyInfo co tbl s = {} := by
  unfold verifyInfo
  rw [h]

theorem storeGet_put (st : MemStore) (nsp : List String) (key : String)
    (v : UserData) :
    storeGet (storePut st nsp key v) nsp key = some { value := v } := by
  unfold storeGet storePut
  rw [List.find?_cons_of_pos]
  · rfl
  · simp

theorem createMemory_eq_of_some (co : Collab) (s : GraphState) (st : MemStore)
    (c : Int) (h : s.customerId = some c) :
    createMemory co s st =
      ({}, storePut st ["memory_profile", toString c] "user_memory"
        { memory := co.extractProfile s.messages s.loadedMemory }) := by
  unfold createMemory
  rw [h]

/-! ## Claim theorems -/

theorem queryPhoneEq_head? (tbl : List Customer) (p : String) :
    (queryPhoneEq tbl p).head? = tbl.find? fun c => c.phone == some p :=
  head?_filter_eq_find? tbl _

theorem queryEmailEq_head? (tbl : List Customer) (e : String) :
    (queryEmailEq tbl e).head? = tbl.find? fun c => c.email == some e :=
  head?_filter_eq_find? tbl _

theorem phoneScan_eq (tbl : List Customer) (ni : String) :
    ((queryPhoneLikePlus tbl).findSome? fun row =>
        match row.phone with
        | some p => if p ≠ "" && normalizePhone p == ni then some row.customerId else none
        | none => none) =
      ((queryPhoneLikePlus tbl).find? fun c =>
        match c.phone with
        | some q => q ≠ "" && normalizePhone q == ni
        | none => false).map (·.customerId) := by
  rw [← findSome?_guard_eq_find?_map]
  congr 1
  funext row
  cases hp : row.phone with
  | none => rfl
  | some q => rfl

/-- C1: in the implicit-context invoice tool variant, each of the three
customer-scoped tools, invoked in a context where `customerId` is absent,
returns the designated error sentinel and issues no query to the relational
store. -/
theorem invoice_tools_unverified_customer (db : String → List Row)
    (invoiceId : Int) :
    getInvoicesByCustomerSortedByDate db none =
      { result := invoiceErrorSentinel, queries := [] }
  ∧ getInvoicesSortedByUnitPrice db none =
      { result := invoiceErrorSentinel, queries := [] }
  ∧ getEmployeeByInvoiceAndCustomer db invoiceId none =
      { result := invoiceErrorSentinel, queries := [] } :=
  ⟨rfl, rfl, rfl⟩

/-- C10: each supervisor delegate invokes its nested sub-agent with a fresh
message list holding exactly one message whose content is the delegated
query; the invoice delegate passes the ambient customer id through the
nested state (it is not a visible tool argument); and each delegate returns
exactly the content of the last message of the sub-agent final state. -/
theorem delegate_seeding_and_return
    (invoiceSub musicSub : SubagentInput → List Message)
    (cid : Option Int) (query : String) :
    callInvoiceInformationSubagent invoiceSub cid query =
      ((invoiceSub { messages := [humanMessage query], customerId := cid }).getLast?).map
        Message.content
  ∧ callMusicCatalogSubagent musicSub query =
      ((musicSub { messages := [humanMessage query], customerId := none }).getLast?).map
        Message.content
  ∧ [humanMessage query].length = 1
  ∧ (humanMessage query).content = query :=
  ⟨rfl, rfl, rfl, rfl⟩

/-- C7: the two sub-agent loop variants are NOT behaviorally equivalent.
Both files wire the label map as continue ↦ tool node, end ↦ END, but
`shouldContinue` in 01-music_subagent.ts returns the labels inverted, so a
decision response carrying a tool call routes to END there while the
variant embedded in 03-supervisor.ts routes it to the tool node, and a
final answer without tool calls routes to the tool node in 01 while 03
terminates.  This contradicts the claim and the comments of
01-music_subagent.ts itself, which assert the routing behavior is the
same. -/
theorem route01_route03_diverge :
    route01 toolCallDecisionState = some RouteTarget.terminal
  ∧ route03 toolCallDecisionState = some RouteTarget.toolNode
  ∧ route01 finalAnswerDecisionState = some RouteTarget.toolNode
  ∧ route03 finalAnswerDecisionState = some RouteTarget.terminal := by
  decide

/-- C6 counterexample: running the sub-agent loop embedded in
03-supervisor.ts under a decision step that always requests a tool call,
26 Deciding→Executing transitions occur within 52 supersteps - exceeding
the configured remainingSteps of 25 - while `remainingSteps` still holds
its initial value 25 (never decremented) and the loop has not been forced
to Done. -/
theorem subagent_loop_budget_counterexample :
    countToolEntries (loopStep memory03 route03 loopToolCallCollab) 52
        (.running .assistant loopStartState) = 26
  ∧ loopRemainingSteps
        (loopRun (loopStep memory03 route03 loopToolCallCollab) 52
          (.running .assistant loopStartState)) = 25
  ∧ loopFinished
        (loopRun (loopStep memory03 route03 loopToolCallCollab) 52
          (.running .assistant loopStartState)) = false := by
  decide

/-- C6 amended: the sub-agent loop neither decrements nor consults
`remainingSteps`: after any number of supersteps of either loop variant it
still holds its initial value, so the loop itself enforces no budget bound
and no budget-forced Done transition. -/
theorem loop_never_touches_remainingSteps (memoryOf : GraphState → String)
    (route : GraphState → Option RouteTarget) (co : LoopCollab) :
    ∀ (fuel : Nat) (o : LoopOut),
      loopRemainingSteps (loopRun (loopStep memoryOf route co) fuel o) =
        loopRemainingSteps o := by
  intro fuel
  induction fuel with
  | zero => intro o; rfl
  | succ k ih =>
      intro o
      cases o with
      | finishedLoop s => rfl
      | running n s =>
          have hstep : loopRun (loopStep memoryOf route co) (k + 1) (.running n s) =
              loopRun (loopStep memoryOf route co) k (loopStep memoryOf route co n s) := rfl
          rw [hstep, ih]
          cases n with
          | assistant =>
              simp only [loopStep]
              cases hr : route (applyUpdate s
                  { messages := [co.decideStep (memoryOf s) s.messages] }) with
              | none => rfl
              | some t => cases t <;> rfl
          | toolNode => rfl

/-- C4 amended: identifier resolution proceeds exactly as the claim states
except that the normalized phone comparison scans only the stored phone
numbers that themselves begin with a plus sign (the rows of the
`LIKE` query), and a leading-plus string that misses both phone comparisons
falls through to the email lookup when it also contains an at sign. -/
theorem getCustomerIdFromIdentifier_resolution (tbl : List Customer) (s : String) :
    (isAllDigits s = true →
        getCustomerIdFromIdentifier s tbl = some (Int.ofNat (digitsToNat s)))
  ∧ (isAllDigits s = false → startsWithPlus s = true →
        getCustomerIdFromIdentifier s tbl =
          ((lookupPhoneExact tbl s).orElse fun _ =>
            (lookupPhonePlusNormalized tbl s).orElse fun _ =>
              if includesChar '@' s then lookupEmailExact tbl s else none))
  ∧ (isAllDigits s = false → startsWithPlus s = false → includesChar '@' s = true →
        getCustomerIdFromIdentifier s tbl = lookupEmailExact tbl s)
  ∧ (isAllDigits s = false → startsWithPlus s = false → includesChar '@' s = false →
        getCustomerIdFromIdentifier s tbl = none) := by
  refine ⟨fun h1 => ?_, fun h1 h2 => ?_, fun h1 h2 h3 => ?_, fun h1 h2 h3 => ?_⟩
  · simp [getCustomerIdFromIdentifier, h1]
  · simp only [getCustomerIdFromIdentifier, h1, h2, Bool.false_eq_true, if_false, if_true,
      queryPhoneEq_head?, phoneScan_eq, lookupPhoneExact, lookupPhonePlusNormalized,
      lookupEmailExact, queryEmailEq_head?]
    cases hfe : tbl.find? (fun c => c.phone == some s) with
    | some row => rfl
    | none =>
        cases hfn : (queryPhoneLikePlus tbl).find? (fun c =>
            match c.phone with
            | some q => q ≠ "" && normalizePhone q == normalizePhone s
            | none => false) with
        | some row => rfl
        | none =>
            cases hc : includesChar '@' s with
            | true =>
                cases hem : tbl.find? (fun c => c.email == some s) with
                | some row => rfl
                | none => rfl
            | false => rfl
  · simp only [getCustomerIdFromIdentifier, h1, h2, h3, Bool.false_eq_true, if_false, if_true,
      queryEmailEq_head?, lookupEmailExact]
    cases hem : tbl.find? (fun c => c.email == some s) with
    | some row => rfl
    | none => rfl
  · simp [getCustomerIdFromIdentifier, h1, h2, h3]

/-- C4 counterexample: with a stored phone " +1" (leading space), the
claim-worded normalized comparison against all stored phone numbers
resolves the identifier "+1" to customer 1, but the code returns null
because its scan covers only phones that begin with a plus sign. -/
theorem phone_scan_scope_counterexample :
    getCustomerIdFromIdentifier "+1" mismatchTable = none
  ∧ lookupPhoneNormalizedAllSpec mismatchTable "+1" = some 1 := by
  decide

/-- Witness for the C4 theorem at the all-digits identifier "10". -/
theorem getCustomerIdFromIdentifier_resolution_witness :
    getCustomerIdFromIdentifier "10" [] = some 10 :=
  (getCustomerIdFromIdentifier_resolution [] "10").1 (by decide)

theorem gateInv_preserved (co : Collab) (tbl : List Customer) {a b : StepOut}
    (h : StepRel co tbl a b) (ha : GateInv a) : GateInv b := by
  cases h with
  | run n s st o heq =>
      subst heq
      cases n with
      | verify_info =>
          simp only [step]
          cases hs : (applyUpdate s (verifyInfo co tbl s)).customerId with
          | some c =>
              have hcond : shouldInterrupt (applyUpdate s (verifyInfo co tbl s)) = "continue" := by
                unfold shouldInterrupt
                rw [hs]
                rfl
              rw [if_pos hcond]
              intro _
              simp [hs]
          | none =>
              have hcond : shouldInterrupt (applyUpdate s (verifyInfo co tbl s)) = "interrupt" := by
                unfold shouldInterrupt
                rw [hs]
                rfl
              rw [if_neg (by rw [hcond]; decide)]
              intro hmem
              rcases hmem with h | h | h <;> exact absurd h (by decide)
      | human_input => trivial
      | load_memory =>
          intro _
          rw [applyUpdate_customerId_none _ _ (loadMemory_customerId_none st s)]
          exact ha (Or.inl rfl)
      | supervisor =>
          intro _
          rw [applyUpdate_customerId_none _ _ rfl]
          exact ha (Or.inr (Or.inl rfl))
      | create_memory => trivial
  | res r s st o heq =>
      subst heq
      intro hmem
      rcases hmem with h | h | h <;> exact absurd h (by decide)

theorem gateInv_reaches (co : Collab) (tbl : List Customer) {a b : StepOut}
    (h : Reaches co tbl a b) (ha : GateInv a) : GateInv b := by
  induction h with
  | refl => exact ha
  | tail _ hstep ih => exact gateInv_preserved co tbl hstep ih

/-- C2: in every run of the top-level graph from its entry configuration,
the load_memory and supervisor nodes are entered only in states with a
defined customerId; whenever verify_info completes with customerId still
undefined the graph routes to human_input; and human_input is the only
node whose execution suspends (invokes the interrupt). -/
theorem graph_gate_and_single_suspender (co : Collab) (tbl : List Customer)
    (msgs : List Message) (st0 : MemStore) :
    (∀ (n : Node) (s : GraphState) (st : MemStore),
        Reaches co tbl (initConfig msgs st0) (.running n s st) →
        (n = Node.load_memory ∨ n = Node.supervisor) → s.customerId ≠ none)
  ∧ (∀ (s s2 : GraphState) (st st2 : MemStore) (n2 : Node),
        step co tbl Node.verify_info s st = .running n2 s2 st2 →
        s2.customerId = none → n2 = Node.human_input)
  ∧ (∀ (n : Node) (s s2 : GraphState) (st st2 : MemStore),
        step co tbl n s st = .suspended s2 st2 → n = Node.human_input) := by
  refine ⟨?_, ?_, ?_⟩
  · intro n s st hreach hmem
    have hinit : GateInv (initConfig msgs st0) := by
      intro h
      rcases h with h | h | h <;> exact absurd h (by decide)
    have hinv : GateInv (.running n s st) := gateInv_reaches co tbl hreach hinit
    rcases hmem with h | h
    · exact hinv (Or.inl h)
    · exact hinv (Or.inr (Or.inl h))
  · intro s s2 st st2 n2 hstep hnone
    simp only [step] at hstep
    by_cases hcond : shouldInterrupt (applyUpdate s (verifyInfo co tbl s)) = "continue"
    · rw [if_pos hcond] at hstep
      injection hstep with hn hs hst
      exfalso
      rw [← hs] at hnone
      unfold shouldInterrupt at hcond
      rw [hnone] at hcond
      exact absurd hcond (by decide)
    · rw [if_neg hcond] at hstep
      injection hstep with hn hs hst
      exact hn.symm
  · intro n s s2 st st2 hstep
    cases n with
    | human_input => rfl
    | verify_info =>
        exfalso
        simp only [step] at hstep
        by_cases hcond : shouldInterrupt (applyUpdate s (verifyInfo co tbl s)) = "continue"
        · rw [if_pos hcond] at hstep
          exact StepOut.noConfusion hstep
        · rw [if_neg hcond] at hstep
          exact StepOut.noConfusion hstep
    | load_memory =>
        simp only [step] at hstep
        exact StepOut.noConfusion hstep
    | supervisor =>
        simp only [step] at hstep
        exact StepOut.noConfusion hstep
    | create_memory =>
        simp only [step] at hstep
        exact StepOut.noConfusion hstep

/-- Witness for the C2 theorem: from the verification-success scenario the
graph reaches load_memory with customerId 10 defined. -/
theorem graph_gate_witness :
    (GraphState.mk (c2Msgs ++ [aiMessage (verifiedMessageText 10)]) (some 10) "" 25).customerId ≠ none := by
  have h : step c2Collab [] Node.verify_info { messages := c2Msgs } [] =
      StepOut.running Node.load_memory
        (GraphState.mk (c2Msgs ++ [aiMessage (verifiedMessageText 10)]) (some 10) "" 25) [] := by
    rfl
  exact (graph_gate_and_single_suspender c2Collab [] c2Msgs []).1 _ _ _
    (Reaches.tail (Reaches.refl _) (StepRel.run _ _ _ _ h)) (Or.inl rfl)

/-- C3: when the Verification node runs on a state without customerId and
either no identifier is extracted or the extracted identifier is not found
by the lookup, the returned update writes no customerId and appends exactly
the decision step response produced under the strict ask-only-for-identity
instruction. -/
theorem verifyInfo_failure_behavior (co : Collab) (tbl : List Customer)
    (s : GraphState) (h1 : s.customerId = none)
    (h2 : co.extractIdentifier s.messages.getLast? = "" ∨
          getCustomerIdFromIdentifier (co.extractIdentifier s.messages.getLast?) tbl = none) :
    (verifyInfo co tbl s).customerId = none
  ∧ (verifyInfo co tbl s).messages =
      [co.respond verifySystemInstructions s.messages] := by
  unfold verifyInfo
  rw [h1]
  by_cases hid : co.extractIdentifier s.messages.getLast? = ""
  · simp [hid]
  · rcases h2 with h2 | h2
    · exact absurd h2 hid
    · simp [hid, h2]

/-- Witness for the C3 theorem on a message without identifying
information. -/
theorem verifyInfo_failure_witness :
    (verifyInfo trivialCollab [] c3State).messages =
      [trivialCollab.respond verifySystemInstructions c3State.messages] :=
  (verifyInfo_failure_behavior trivialCollab [] c3State rfl (Or.inl rfl)).2

/-- C5: no transition of the top-level graph clears or changes a set
customerId, and invoking the Verification node with customerId already set
returns the empty update, leaving the state unchanged. -/
theorem customerId_stable (co : Collab) (tbl : List Customer) :
    (∀ (a b : StepOut) (c : Int), StepRel co tbl a b →
        (outState a).customerId = some c → (outState b).customerId = some c)
  ∧ (∀ (s : GraphState) (c : Int), s.customerId = some c →
        verifyInfo co tbl s = {} ∧ applyUpdate s (verifyInfo co tbl s) = s) := by
  constructor
  · intro a b c hrel hc
    cases hrel with
    | run n s st o heq =>
        subst heq
        cases n with
        | verify_info =>
            have hvp : verifyInfo co tbl s = {} := verifyInfo_pass co tbl s c hc
            simp only [step, hvp, applyUpdate_empty]
            by_cases hcond : shouldInterrupt s = "continue"
            · rw [if_pos hcond]
              exact hc
            · rw [if_neg hcond]
              exact hc
        | human_input =>
            simp only [step, outState]
            exact hc
        | load_memory =>
            simp only [step, outState]
            rw [applyUpdate_customerId_none _ _ (loadMemory_customerId_none st s)]
            exact hc
        | supervisor =>
            simp only [step, outState]
            rw [applyUpdate_customerId_none _ _ rfl]
            exact hc
        | create_memory =>
            simp only [step, outState]
            have h1 : (createMemory co s st).1.customerId = none := by
              rw [createMemory_fst_empty]
            rw [applyUpdate_customerId_none _ _ h1]
            exact hc
    | res r s st o heq =>
        subst heq
        simp only [resumeStep, outState]
        rw [applyUpdate_customerId_none _ _ rfl]
        exact hc
  · intro s c h
    refine ⟨verifyInfo_pass co tbl s c h, ?_⟩
    rw [verifyInfo_pass co tbl s c h, applyUpdate_empty]

/-- Witness for the C5 theorem at the supervisor node with customer 5. -/
theorem customerId_stable_witness :
    (outState (step trivialCollab [] Node.supervisor
        { messages := [], customerId := some 5 } [])).customerId = some 5 :=
  (customerId_stable trivialCollab []).1 _ _ 5 (StepRel.run _ _ _ _ rfl) rfl

/-- C8: after Memory-Save persists the profile (customerId "10",
musicPreferences ["jazz"]), Memory-Load for customer 10 reads it back from
namespace ("memory_profile", "10") and produces the non-empty loadedMemory
"Music Preferences: jazz", which contains "jazz". -/
theorem memory_roundtrip (co : Collab) (s s2 : GraphState) (st : MemStore)
    (h1 : s.customerId = some 10)
    (h2 : co.extractProfile s.messages s.loadedMemory =
        { customerId := "10", musicPreferences := ["jazz"] })
    (h3 : s2.customerId = some 10) :
    storeGet (createMemory co s st).2 ["memory_profile", "10"] "user_memory" =
        some { value := { memory := { customerId := "10", musicPreferences := ["jazz"] } } }
  ∧ (loadMemory (createMemory co s st).2 s2).loadedMemory =
        some "Music Preferences: jazz"
  ∧ "Music Preferences: jazz" ≠ ""
  ∧ "Music Preferences: " ++ "jazz" ++ "" = "Music Preferences: jazz" := by
  have hts : (toString (10 : Int)) = "10" := by decide
  have hcm : (createMemory co s st).2 =
      storePut st ["memory_profile", "10"] "user_memory"
        { memory := { customerId := "10", musicPreferences := ["jazz"] } } := by
    rw [createMemory_eq_of_some co s st 10 h1, h2, hts]
  refine ⟨?_, ?_, by decide, by decide⟩
  · rw [hcm]
    exact storeGet_put st _ _ _
  · rw [hcm]
    unfold loadMemory
    rw [h3]
    dsimp only
    rw [hts, storeGet_put]
    decide

/-- Witness for the C8 theorem with concrete state and empty store. -/
theorem memory_roundtrip_witness :
    (loadMemory (createMemory jazzCollab c8State []).2 c8State).loadedMemory =
      some "Music Preferences: jazz" :=
  (memory_roundtrip jazzCollab c8State c8State [] rfl rfl rfl).2.1

/-- C9 counterexample: the store holds musicPreferences ["jazz"] for
customer "10"; the extraction step supplies an empty preference list (no
non-empty replacement), yet Memory-Save persists the empty list verbatim -
the previous field value is not kept, contradicting the claimed per-field
merge rule. -/
theorem createMemory_no_field_merge_counterexample :
    storeGet staleJazzStore ["memory_profile", "10"] "user_memory" =
        some { value := { memory := { customerId := "10", musicPreferences := ["jazz"] } } }
  ∧ storeGet (createMemory emptyingCollab c9State staleJazzStore).2
        ["memory_profile", "10"] "user_memory" =
        some { value := { memory := { customerId := "10", musicPreferences := [] } } } := by
  decide

/-- C9 amended: Memory-Save persists the extraction output verbatim (the
keep-unless-replaced rule lives only in the extraction prompt); what does
hold is that Save returns no state updates, so a second Save on the
unchanged transcript feeds the extraction step identical inputs and
persists the identical profile both times. -/
theorem createMemory_saveTwice_stable (co : Collab) (s : GraphState)
    (st : MemStore) (c : Int) (h : s.customerId = some c) :
    (createMemory co s st).1 = {}
  ∧ storeGet (createMemory co (applyUpdate s (createMemory co s st).1)
        (createMemory co s st).2).2 ["memory_profile", toString c] "user_memory" =
      some { value := { memory := co.extractProfile s.messages s.loadedMemory } }
  ∧ storeGet (createMemory co s st).2 ["memory_profile", toString c] "user_memory" =
      some { value := { memory := co.extractProfile s.messages s.loadedMemory } } := by
  refine ⟨createMemory_fst_empty co s st, ?_, ?_⟩
  · rw [createMemory_fst_empty, applyUpdate_empty,
      createMemory_eq_of_some co s ((createMemory co s st).2) c h]
    exact storeGet_put _ _ _ _
  · rw [createMemory_eq_of_some co s st c h]
    exact storeGet_put _ _ _ _

/-- Witness for the amended C9 theorem on the concrete stale store. -/
theorem createMemory_saveTwice_stable_witness :
    (createMemory emptyingCollab c9State staleJazzStore).1 = {} :=
  (createMemory_saveTwice_stable emptyingCollab c9State staleJazzStore 10 rfl).1

end LangGraph101
